import Mathlib

/-!
Verification development for the clientip middleware (package clientip,
file clientip.go): a shallow embedding of the detection pipeline and the
built-in detectors, followed by theorems about the detection algorithm.

Modelling conventions:
* Go strings are modelled as lists of characters (GoStr); the helpers
  trim, splitOnChar and containsChar model strings.TrimSpace (restricted
  to ASCII whitespace), strings.Split with a one-character separator and
  strings.Contains with a one-character substring.
* net.IP is modelled as a list of byte values; a nil net.IP is modelled
  as the none case of Option IP.  net.ParseIP is modelled for the
  dotted-quad IPv4 form (the only form exercised here); every other
  input, including IPv6 text, parses to none.
* net.SplitHostPort is modelled for the unbracketed host:port form: the
  input must contain exactly one colon and no brackets.
* http.Request is modelled by its RemoteAddr string and a lookup
  function from (canonicalized) header name to the ordered list of raw
  header values, matching http.Header.Values.
* ServeHTTP performs side effects (invoking the reject handler, the
  callback and the wrapped next handler); it is embedded as a pure
  function returning a RunResult that records which collaborators were
  invoked and with which request the next handler was called.
-/

namespace ClientIp

/-- Go strings, modelled as lists of characters. -/
abbrev GoStr := List Char

/-- Conversion from a Lean string literal to the GoStr model. -/
def str (s : String) : GoStr := s.data

/-- Accumulator loop for splitOnChar. -/
def splitAux (sep : Char) : GoStr → GoStr → List GoStr
  | [], acc => [acc.reverse]
  | c :: cs, acc =>
    if c = sep then acc.reverse :: splitAux sep cs []
    else splitAux sep cs (c :: acc)

/-- Models strings.Split with a one-character separator. -/
def splitOnChar (sep : Char) (s : GoStr) : List GoStr := splitAux sep s []

/-- Models strings.Contains with a one-character substring. -/
def containsChar (c : Char) (s : GoStr) : Bool := s.any (fun x => x == c)

/-- Models strings.TrimSpace, restricted to ASCII whitespace characters. -/
def trim (s : GoStr) : GoStr :=
  ((s.dropWhile Char.isWhitespace).reverse.dropWhile Char.isWhitespace).reverse

/-- Models a parsed net.IP address as its list of byte values. -/
structure IP where
  bytes : List Nat
deriving DecidableEq, Repr

/-- Convenience constructor for a four-byte IPv4 address. -/
def ip4 (a b c d : Nat) : IP := ⟨[a, b, c, d]⟩

/-- Models the net.IP method testing for the unspecified address
(0.0.0.0; the IPv6 unspecified address is outside the IPv4 model). -/
def IP.isUnspecified (ip : IP) : Bool := ip.bytes == [0, 0, 0, 0]

/-- Decimal value of a digit string (callers check the digits first). -/
def digitsToNat (s : GoStr) : Nat :=
  s.foldl (fun acc c => acc * 10 + (c.toNat - 48)) 0

/-- Models the parsing of one dotted-quad field of net.ParseIP: one to
three decimal digits, no leading zero, value at most 255. -/
def parseOctet : GoStr → Option Nat
  | [] => none
  | c :: cs =>
    if !(c :: cs).all Char.isDigit then none
    else if (c :: cs).length > 3 then none
    else if c == '0' && !cs.isEmpty then none
    else
      let n := digitsToNat (c :: cs)
      if n ≤ 255 then some n else none

/-- Parses every field of a dotted-quad split, failing if any field fails. -/
def parseOctets : List GoStr → Option (List Nat)
  | [] => some []
  | s :: rest =>
    match parseOctet s, parseOctets rest with
    | some n, some ns => some (n :: ns)
    | _, _ => none

/-- Models net.ParseIP for the dotted-quad IPv4 form; anything else
(including IPv6 text) parses to none, which models a nil net.IP. -/
def parseIP (s : GoStr) : Option IP :=
  match parseOctets (splitOnChar '.' s) with
  | some [a, b, c, d] => some ⟨[a, b, c, d]⟩
  | _ => none

/-- Models net.SplitHostPort for the unbracketed host:port form: exactly
one colon and no bracket characters; every other shape is an error. -/
def splitHostPort (s : GoStr) : Option (GoStr × GoStr) :=
  match splitOnChar ':' s with
  | [host, port] =>
    if containsChar '[' host || containsChar ']' host ||
        containsChar '[' port || containsChar ']' port then none
    else some (host, port)
  | _ => none

/-- Models http.Request: the RemoteAddr string and the header lookup,
from canonicalized header name to the ordered list of raw values. -/
structure Request where
  remoteAddr : GoStr
  headers : GoStr → List GoStr

/-- A detector strategy, as in the detectors field of the handler:
func(r http.Request) net.IP, with nil modelled as none. -/
abbrev Detector := Request → Option IP

/-- The headerForwardedFor constant of the source. -/
def headerForwardedFor : GoStr := str "X-Forwarded-For"

/-- Models http.Header.Get: first value of the header, or empty. -/
def headerGet (r : Request) (name : GoStr) : GoStr :=
  match r.headers name with
  | [] => []
  | v :: _ => v

/-- The default detector installed by buildHandler: split RemoteAddr as
host:port and parse the host as an IP; nil on any failure. -/
def defaultPeerDetector (r : Request) : Option IP :=
  match splitHostPort (trim r.remoteAddr) with
  | some (addr, _) => parseIP addr
  | none => none

/-- The chain-building loop of WithXFFDetector: for every value of the
forwarding header, split on commas when a comma is present, trim each
token and parse it, appending in order (unparseable tokens append none). -/
def buildChain (r : Request) : List (Option IP) :=
  (r.headers headerForwardedFor).foldl
    (fun chain forwarded =>
      if containsChar ',' forwarded then
        chain ++ (splitOnChar ',' forwarded).map (fun addr => parseIP (trim addr))
      else
        chain ++ [parseIP (trim forwarded)])
    []

/-- The backward walk of WithXFFDetector: visit the chain from its last
entry to its first and return the first entry failing the predicate. -/
def walkBack (trusted : Option IP → Bool) : List (Option IP) → Option (Option IP)
  | [] => none
  | e :: rest =>
    match walkBack trusted rest with
    | some x => some x
    | none => if trusted e then none else some e

/-- The body of WithXFFDetector after the peer gate: return the first
untrusted entry of the backward walk, else the first chain entry, else
nil for an empty chain. -/
def xffChainResult (trusted : Option IP → Bool) (r : Request) : Option IP :=
  match walkBack trusted (buildChain r) with
  | some e => e
  | none =>
    match buildChain r with
    | [] => none
    | c :: _ => c

/-- The detector produced by WithXFFDetector: when RemoteAddr splits as
host:port, an untrusted peer returns nil at once; otherwise (including
when the split fails) the chain walk runs. -/
def xffDetector (trusted : Option IP → Bool) (r : Request) : Option IP :=
  match splitHostPort (trim r.remoteAddr) with
  | some (addr, _) =>
    if trusted (parseIP addr) then xffChainResult trusted r else none
  | none => xffChainResult trusted r

/-- The detector produced by WithTrustedHeaderDetector: parse the first
value of the named header when non-empty after trimming, else nil. -/
def trustedHeaderDetector (name : GoStr) (r : Request) : Option IP :=
  let addr := trim (headerGet r name)
  if addr = [] then none else parseIP addr

/-- The handler struct.  The next http.Handler and the bodies of the
reject handler are external collaborators: their invocation is recorded
by RunResult, and reject being non-nil is modelled by hasReject. -/
structure Handler where
  callback : Option (Request → Option IP → Request)
  detectors : List Detector
  hasReject : Bool

/-- An Option of the source: a function mutating the handler. -/
abbrev HandlerOption := Handler → Handler

/-- WithCallback: set the callback. -/
def withCallback (c : Request → Option IP → Request) : HandlerOption :=
  fun h => { h with callback := some c }

/-- WithDetector: append a custom detector to the detectors chain. -/
def withDetector (d : Detector) : HandlerOption :=
  fun h => { h with detectors := h.detectors ++ [d] }

/-- WithXFFDetector: append the forwarding-chain detector. -/
def withXFFDetector (trusted : Option IP → Bool) : HandlerOption :=
  withDetector (xffDetector trusted)

/-- WithTrustedHeaderDetector: append the trusted-header detector. -/
def withTrustedHeaderDetector (name : GoStr) : HandlerOption :=
  withDetector (trustedHeaderDetector name)

/-- WithReject: install a reject handler (its body is external; only its
presence matters to the control flow). -/
def withReject : HandlerOption :=
  fun h => { h with hasReject := true }

/-- buildHandler: start from the default detector list holding only the
peer-address detector and apply the options in call order. -/
def buildHandler (opts : List HandlerOption) : Handler :=
  opts.foldl (fun h o => o h)
    { callback := none, detectors := [defaultPeerDetector], hasReject := false }

/-- The detection loop of ServeHTTP: iterate the detectors from the last
added to the first, stopping at the first non-nil, non-unspecified
result; nil when the list is exhausted. -/
def detect : List Detector → Request → Option IP
  | [], _ => none
  | d :: rest, r =>
    match detect rest r with
    | some ip => some ip
    | none =>
      match d r with
      | some detected =>
        if detected.isUnspecified then none else some detected
      | none => none

/-- Record of the side effects of one ServeHTTP run: whether the reject
handler, the callback and the wrapped next handler were invoked, and
the request the next handler received. -/
structure RunResult where
  rejectInvoked : Bool
  callbackInvoked : Bool
  nextInvoked : Bool
  nextRequest : Option Request

/-- ServeHTTP: run the detection loop; when a reject handler is set and
no address was detected, invoke it and stop; otherwise run the callback
when set and invoke the next handler with the resulting request. -/
def serveHTTP (h : Handler) (r : Request) : RunResult :=
  let ip := detect h.detectors r
  if h.hasReject && ip.isNone then
    { rejectInvoked := true, callbackInvoked := false
      nextInvoked := false, nextRequest := none }
  else
    { rejectInvoked := false
      callbackInvoked := h.callback.isSome
      nextInvoked := true
      nextRequest := some (match h.callback with
        | some cb => cb r ip
        | none => r) }

end ClientIp

namespace ClientIp

/-- Concrete data used to evaluate the theorems: a request carrying the
peer 10.137.0.0:13456 and two forwarding headers of three tokens each,
as in the repository tests. -/
def chainReq : Request :=
  { remoteAddr := str "10.137.0.0:13456"
    headers := fun n =>
      if n = headerForwardedFor then
        [str "10.137.0.1, 10.137.0.2, 10.137.0.3",
         str "10.137.0.4, 10.137.0.5, 10.137.0.6"]
      else [] }

/-- Trust predicate accepting the peer 10.137.0.0 and the proxies
10.137.0.6, 10.137.0.4, 10.137.0.3 and 10.137.0.2 (so the backward walk
over chainReq stops at 10.137.0.5). -/
def c3trust (x : Option IP) : Bool :=
  x == some (ip4 10 137 0 0) || x == some (ip4 10 137 0 6) ||
  x == some (ip4 10 137 0 4) || x == some (ip4 10 137 0 3) ||
  x == some (ip4 10 137 0 2)

/-- Trust predicate accepting the peer and every chain entry of chainReq. -/
def c4trust (x : Option IP) : Bool :=
  x == some (ip4 10 137 0 0) || x == some (ip4 10 137 0 1) ||
  x == some (ip4 10 137 0 2) || x == some (ip4 10 137 0 3) ||
  x == some (ip4 10 137 0 4) || x == some (ip4 10 137 0 5) ||
  x == some (ip4 10 137 0 6)

/-- Request with a trusted peer and one forwarding header containing the
malformed token dash between two well-formed, trusted tokens. -/
def c2req : Request :=
  { remoteAddr := str "10.137.0.0:13456"
    headers := fun n =>
      if n = headerForwardedFor then [str "10.137.0.5, -, 10.137.0.6"]
      else [] }

/-- Trust predicate for c2req: peer and both parseable tokens trusted;
the malformed placeholder (none) is not trusted. -/
def c2trust (x : Option IP) : Bool :=
  x == some (ip4 10 137 0 0) || x == some (ip4 10 137 0 5) ||
  x == some (ip4 10 137 0 6)

/-- If every entry of the chain is trusted, the backward walk finds
nothing. -/
theorem walkBack_all_trusted (trusted : Option IP → Bool) :
    ∀ l : List (Option IP), (∀ e ∈ l, trusted e = true) →
      walkBack trusted l = none
  | [], _ => rfl
  | e :: rest, h => by
    have hr := walkBack_all_trusted trusted rest
      (fun x hx => h x (List.mem_cons_of_mem e hx))
    have he := h e (List.mem_cons_self e rest)
    simp [walkBack, hr, he]

/-- The backward walk over pre ++ e :: post returns e whenever every
entry of post is trusted and e is not: e is the first untrusted entry
met when walking from the end. -/
theorem walkBack_firstUntrusted (trusted : Option IP → Bool) (e : Option IP)
    (he : trusted e = false) :
    ∀ (pre post : List (Option IP)), (∀ x ∈ post, trusted x = true) →
      walkBack trusted (pre ++ e :: post) = some e
  | [], post, hpost => by
    simp [walkBack, walkBack_all_trusted trusted post hpost, he]
  | p :: pre, post, hpost => by
    have ih := walkBack_firstUntrusted trusted e he pre post hpost
    simp [walkBack, ih]

end ClientIp

namespace ClientIp

/-- C1: for every request whose peer address splits as host:port and
whose host parses to an IP failing the trust predicate, the XFF detector
returns absent, whatever forwarding headers the request carries. -/
theorem xff_untrusted_peer_absent (trusted : Option IP → Bool) (r : Request)
    (host port : GoStr) (ip : IP)
    (hsplit : splitHostPort (trim r.remoteAddr) = some (host, port))
    (hparse : parseIP host = some ip)
    (htrust : trusted (some ip) = false) :
    xffDetector trusted r = none := by
  simp [xffDetector, hsplit, hparse, htrust]

/-- Witness for C1: peer 10.137.0.0 fails the constantly-false predicate,
so the detector ignores both forwarding headers of chainReq. -/
theorem xff_untrusted_peer_absent_witness :
    xffDetector (fun _ => false) chainReq = none :=
  xff_untrusted_peer_absent (fun _ => false) chainReq
    (str "10.137.0.0") (str "13456") (ip4 10 137 0 0)
    (by decide) (by decide) rfl

/-- C3: with a trusted peer, when the chain decomposes as
pre ++ e :: post with e untrusted and every entry of post (the entries
appended after e, hence nearer the server) trusted, the backward walk of
the XFF detector stops at e and returns it. -/
theorem xff_first_untrusted (trusted : Option IP → Bool) (r : Request)
    (host port : GoStr) (ip : IP) (e : Option IP)
    (pre post : List (Option IP))
    (hsplit : splitHostPort (trim r.remoteAddr) = some (host, port))
    (hparse : parseIP host = some ip)
    (htrust : trusted (some ip) = true)
    (hchain : buildChain r = pre ++ e :: post)
    (he : trusted e = false)
    (hpost : ∀ x ∈ post, trusted x = true) :
    xffDetector trusted r = e := by
  have hwalk := walkBack_firstUntrusted trusted e he pre post hpost
  simp [xffDetector, hsplit, hparse, htrust, xffChainResult, hchain, hwalk]

/-- Witness for C3: over chainReq with c3trust (everything trusted but
10.137.0.5 and 10.137.0.1), the walk from the end stops at 10.137.0.5,
as in the repository test. -/
theorem xff_first_untrusted_witness :
    xffDetector c3trust chainReq = some (ip4 10 137 0 5) :=
  xff_first_untrusted c3trust chainReq
    (str "10.137.0.0") (str "13456") (ip4 10 137 0 0)
    (some (ip4 10 137 0 5))
    [some (ip4 10 137 0 1), some (ip4 10 137 0 2),
     some (ip4 10 137 0 3), some (ip4 10 137 0 4)]
    [some (ip4 10 137 0 6)]
    (by decide) (by decide) (by decide) (by decide) (by decide) (by decide)

/-- C4: with a trusted peer and every chain entry trusted, the XFF
detector returns the first chain entry when the chain is non-empty and
absent when the chain is empty. -/
theorem xff_all_trusted_first (trusted : Option IP → Bool) (r : Request)
    (host port : GoStr) (ip : IP)
    (hsplit : splitHostPort (trim r.remoteAddr) = some (host, port))
    (hparse : parseIP host = some ip)
    (htrust : trusted (some ip) = true)
    (hall : ∀ x ∈ buildChain r, trusted x = true) :
    (buildChain r = [] → xffDetector trusted r = none) ∧
    (∀ c rest, buildChain r = c :: rest → xffDetector trusted r = c) := by
  have hwalk := walkBack_all_trusted trusted (buildChain r) hall
  constructor
  · intro hempty
    rw [hempty] at hwalk
    simp [xffDetector, hsplit, hparse, htrust, xffChainResult, hempty, hwalk]
  · intro c rest hcons
    rw [hcons] at hwalk
    simp [xffDetector, hsplit, hparse, htrust, xffChainResult, hcons, hwalk]

/-- Witness for C4: with every entry of chainReq trusted under c4trust,
the detector falls back to the outermost entry 10.137.0.1. -/
theorem xff_all_trusted_first_witness :
    xffDetector c4trust chainReq = some (ip4 10 137 0 1) :=
  (xff_all_trusted_first c4trust chainReq
      (str "10.137.0.0") (str "13456") (ip4 10 137 0 0)
      (by decide) (by decide) (by decide) (by decide)).2
    (some (ip4 10 137 0 1))
    [some (ip4 10 137 0 2), some (ip4 10 137 0 3), some (ip4 10 137 0 4),
     some (ip4 10 137 0 5), some (ip4 10 137 0 6)]
    (by decide)

end ClientIp

namespace ClientIp

/-- Counterexample to C2: peer 10.137.0.0 is trusted, the chain of c2req
is 10.137.0.5, malformed, 10.137.0.6 with both parseable entries trusted
and the malformed placeholder untrusted, yet the XFF detector returns
absent — not 10.137.0.6 (the entry visited just before the malformed
token on the backward walk), nor 10.137.0.5, nor the peer address: the
walk returns the untrusted entry itself, which is the nil placeholder. -/
theorem xff_malformed_counterexample :
    c2trust (parseIP (str "10.137.0.0")) = true ∧
    buildChain c2req =
      [some (ip4 10 137 0 5), none, some (ip4 10 137 0 6)] ∧
    c2trust (some (ip4 10 137 0 5)) = true ∧
    c2trust (some (ip4 10 137 0 6)) = true ∧
    c2trust none = false ∧
    xffDetector c2trust c2req = none ∧
    xffDetector c2trust c2req ≠ some (ip4 10 137 0 6) ∧
    xffDetector c2trust c2req ≠ some (ip4 10 137 0 0) := by
  decide

/-- C2 as amended: with a trusted peer, a malformed (unparseable) token
that the predicate rejects terminates the backward walk as soon as it is
reached (every later-appended, more server-ward entry being trusted),
and the XFF detector then returns absent — the nil placeholder itself,
never the neighbouring entry.  In the built pipeline, detection
therefore falls through to the default peer-address detector, so the
overall result is the peer address, whatever the position of the
malformed token in the chain. -/
theorem xff_malformed_token (trusted : Option IP → Bool) (r : Request)
    (host port : GoStr) (ip : IP) (pre post : List (Option IP))
    (hsplit : splitHostPort (trim r.remoteAddr) = some (host, port))
    (hparse : parseIP host = some ip)
    (htrust : trusted (some ip) = true)
    (hchain : buildChain r = pre ++ none :: post)
    (hpost : ∀ x ∈ post, trusted x = true)
    (hmal : trusted none = false) :
    xffDetector trusted r = none ∧
    (ip.isUnspecified = false →
      detect (buildHandler [withXFFDetector trusted]).detectors r = some ip) := by
  have hwalk := walkBack_firstUntrusted trusted none hmal pre post hpost
  have hxff : xffDetector trusted r = none := by
    simp [xffDetector, hsplit, hparse, htrust, xffChainResult, hchain, hwalk]
  refine ⟨hxff, fun hu => ?_⟩
  have hdet : (buildHandler [withXFFDetector trusted]).detectors
      = [defaultPeerDetector, xffDetector trusted] := rfl
  rw [hdet]
  simp [detect, hxff, defaultPeerDetector, hsplit, hparse, hu]

/-- Witness for the amended C2: on c2req the XFF detector yields absent
and the assembled pipeline falls back to the peer address 10.137.0.0,
matching the stop-on-broken test of the repository. -/
theorem xff_malformed_token_witness :
    xffDetector c2trust c2req = none ∧
    detect (buildHandler [withXFFDetector c2trust]).detectors c2req
      = some (ip4 10 137 0 0) :=
  have h := xff_malformed_token c2trust c2req
    (str "10.137.0.0") (str "13456") (ip4 10 137 0 0)
    [some (ip4 10 137 0 5)] [some (ip4 10 137 0 6)]
    (by decide) (by decide) (by decide) (by decide) (by decide) (by decide)
  ⟨h.1, h.2 (by decide)⟩

end ClientIp

namespace ClientIp

/-- Appending a detector runs it before the existing list: the detection
loop consults the last-added detector first and keeps its result when it
is present and not unspecified, deferring to the rest otherwise. -/
theorem detect_append_last (d : Detector) (r : Request) :
    ∀ ds : List Detector,
      detect (ds ++ [d]) r =
        match d r with
        | some ip => if ip.isUnspecified then detect ds r else some ip
        | none => detect ds r
  | [] => by
    cases hd : d r with
    | none => simp [detect, hd]
    | some ip =>
      cases hu : ip.isUnspecified with
      | false => simp [detect, hd, hu]
      | true => simp [detect, hd, hu]
  | d2 :: ds => by
    have ih := detect_append_last d r ds
    cases hd : d r with
    | none => simp [detect, ih, hd]
    | some ip =>
      cases hu : ip.isUnspecified with
      | false => simp [detect, ih, hd, hu]
      | true => simp [detect, ih, hd, hu]

/-- Constant detector used by the C5 witness. -/
def c5d : Detector := fun _ => some (ip4 9 9 9 9)

/-- Request used by the C5 witness. -/
def c5req : Request := { remoteAddr := str "1.2.3.4:80", headers := fun _ => [] }

/-- C5: the detection loop returns absent on an empty detector list;
when the last-added detector yields a present non-unspecified address
the loop returns it whatever the earlier-added detectors are (they are
never consulted); and when the last-added detector yields nil or an
unspecified address the loop continues exactly as the loop over the
earlier-added detectors. -/
theorem detect_priority_shortcircuit (r : Request) (d : Detector)
    (ds : List Detector) :
    detect [] r = none ∧
    (∀ ip : IP, d r = some ip → ip.isUnspecified = false →
      detect (ds ++ [d]) r = some ip) ∧
    ((d r = none ∨ ∃ ip, d r = some ip ∧ ip.isUnspecified = true) →
      detect (ds ++ [d]) r = detect ds r) := by
  refine ⟨rfl, ?_, ?_⟩
  · intro ip hip hu
    simp [detect_append_last, hip, hu]
  · rintro (hnone | ⟨ip, hip, hu⟩)
    · simp [detect_append_last, hnone]
    · simp [detect_append_last, hip, hu]

/-- Witness for C5: the last-added constant detector wins over the
default peer detector without the latter being consulted. -/
theorem detect_priority_shortcircuit_witness :
    detect ([defaultPeerDetector] ++ [c5d]) c5req = some (ip4 9 9 9 9) :=
  (detect_priority_shortcircuit c5req c5d [defaultPeerDetector]).2.1
    (ip4 9 9 9 9) rfl rfl

/-- Request used by the C6 counterexample: its peer address is the
unspecified address 0.0.0.0. -/
def c6req : Request := { remoteAddr := str "0.0.0.0:80", headers := fun _ => [] }

/-- Counterexample to C6: the built-in peer-address detector does return
the unspecified address when RemoteAddr is 0.0.0.0:80, so it is not true
that every built-in detector yields absent or a non-unspecified
address.  The filtering happens later, in the detection loop. -/
theorem detector_unspecified_counterexample :
    defaultPeerDetector c6req = some (ip4 0 0 0 0) ∧
    (ip4 0 0 0 0).isUnspecified = true ∧
    detect [defaultPeerDetector] c6req = none := by
  decide

/-- C6 as amended: an individual detector may return the unspecified
address, but the detection loop of ServeHTTP never selects it: whenever
the loop yields a present address, that address is not unspecified. -/
theorem detect_never_unspecified :
    ∀ (ds : List Detector) (r : Request) (ip : IP),
      detect ds r = some ip → ip.isUnspecified = false
  | [], _, _, h => by simp [detect] at h
  | d :: ds, r, ip, h => by
    simp only [detect] at h
    cases hrest : detect ds r with
    | some x =>
      rw [hrest] at h
      simp only [Option.some.injEq] at h
      subst h
      exact detect_never_unspecified ds r x hrest
    | none =>
      rw [hrest] at h
      simp only [] at h
      cases hd : d r with
      | none => rw [hd] at h; simp at h
      | some det =>
        rw [hd] at h
        simp only [] at h
        cases hu : det.isUnspecified with
        | true => rw [hu] at h; simp at h
        | false =>
          rw [hu] at h
          simp at h
          rw [← h]
          exact hu

/-- Witness for the amended C6: the pipeline over the lone peer detector
selects 1.2.3.4, which is not unspecified. -/
theorem detect_never_unspecified_witness :
    (ip4 1 2 3 4).isUnspecified = false :=
  detect_never_unspecified [defaultPeerDetector] c5req (ip4 1 2 3 4) (by decide)

/-- C8: the default peer-address detector returns absent when RemoteAddr
does not split as host:port, returns absent when the host part does not
parse as an IP, and returns exactly the parsed host IP on success —
never a substituted value. -/
theorem peer_detector_contract (r : Request) :
    (splitHostPort (trim r.remoteAddr) = none → defaultPeerDetector r = none) ∧
    (∀ host port, splitHostPort (trim r.remoteAddr) = some (host, port) →
      (parseIP host = none → defaultPeerDetector r = none) ∧
      (∀ ip, parseIP host = some ip → defaultPeerDetector r = some ip)) := by
  refine ⟨fun h => ?_, fun host port h => ⟨fun hp => ?_, fun ip hp => ?_⟩⟩
  · simp [defaultPeerDetector, h]
  · simp [defaultPeerDetector, h, hp]
  · simp [defaultPeerDetector, h, hp]

/-- Witness for C8: on chainReq the peer detector parses 10.137.0.0. -/
theorem peer_detector_contract_witness :
    defaultPeerDetector chainReq = some (ip4 10 137 0 0) :=
  ((peer_detector_contract chainReq).2
    (str "10.137.0.0") (str "13456") (by decide)).2
    (ip4 10 137 0 0) (by decide)

end ClientIp

namespace ClientIp

/-- Handler used by the C7 witness: default detectors plus a reject
handler. -/
def c7h : Handler := buildHandler [withReject]

/-- Request used by the C7 witness: its peer address has no port, so no
detector fires. -/
def c7req : Request := { remoteAddr := str "bad", headers := fun _ => [] }

/-- C7: when the detection loop yields absent and a reject handler is
configured, ServeHTTP invokes the reject handler and never invokes the
wrapped next handler. -/
theorem reject_stops_pipeline (h : Handler) (r : Request)
    (habsent : detect h.detectors r = none)
    (hrej : h.hasReject = true) :
    (serveHTTP h r).rejectInvoked = true ∧
    (serveHTTP h r).nextInvoked = false := by
  simp [serveHTTP, habsent, hrej]

/-- Witness for C7: the peer address of c7req does not split as
host:port, so detection is absent and the configured rejection fires. -/
theorem reject_stops_pipeline_witness :
    (serveHTTP c7h c7req).rejectInvoked = true ∧
    (serveHTTP c7h c7req).nextInvoked = false :=
  reject_stops_pipeline c7h c7req (by decide) rfl

/-- Constantly-false trust predicate of the C9 theorem. -/
def c9trust : Option IP → Bool := fun _ => false

/-- Request of the C9 theorem: a peer address that does not split as
host:port together with a client-controlled forwarding header. -/
def c9req : Request :=
  { remoteAddr := str "garbage"
    headers := fun n =>
      if n = headerForwardedFor then [str "9.9.9.9"] else [] }

/-- C9: when the peer address fails to split as host:port, the XFF
detector skips the trusted-peer gate and walks the header chain, so it
returns an address taken from the forwarding header even though the
trust predicate holds for no address at all. -/
theorem xff_gate_skipped_on_bad_peer :
    splitHostPort (trim c9req.remoteAddr) = none ∧
    (∀ x, c9trust x = false) ∧
    xffDetector c9trust c9req = some (ip4 9 9 9 9) :=
  ⟨by decide, fun _ => rfl, by decide⟩

/-- Callback used by the C10 witness. -/
def c10cb : Request → Option IP → Request := fun r _ => r

/-- Handler used by the C10 witness: default detectors plus a callback,
no reject handler. -/
def c10h : Handler := buildHandler [withCallback c10cb]

/-- C10: on every run that invokes the reject handler the callback is
not invoked; and whenever a callback is configured and rejection does
not fire, the callback is invoked and the request it returns on the
detected address is exactly the request passed to the wrapped handler. -/
theorem callback_skipped_on_reject (h : Handler) (r : Request) :
    ((serveHTTP h r).rejectInvoked = true →
      (serveHTTP h r).callbackInvoked = false) ∧
    (∀ cb, h.callback = some cb →
      (serveHTTP h r).rejectInvoked = false →
      (serveHTTP h r).callbackInvoked = true ∧
      (serveHTTP h r).nextRequest = some (cb r (detect h.detectors r))) := by
  constructor
  · intro hrej
    cases hc : (h.hasReject && (detect h.detectors r).isNone) with
    | true => simp [serveHTTP, hc]
    | false => simp [serveHTTP, hc] at hrej
  · intro cb hcb hnorej
    cases hc : (h.hasReject && (detect h.detectors r).isNone) with
    | true => simp [serveHTTP, hc] at hnorej
    | false => simp [serveHTTP, hc, hcb]

/-- Witness for C10: with a callback configured and no reject handler,
the callback runs and the next handler receives its return value. -/
theorem callback_skipped_on_reject_witness :
    (serveHTTP c10h c5req).callbackInvoked = true ∧
    (serveHTTP c10h c5req).nextRequest
      = some (c10cb c5req (detect c10h.detectors c5req)) :=
  (callback_skipped_on_reject c10h c5req).2 c10cb rfl rfl

end ClientIp
